import Mathlib

/-!
Verification of the BLS-Slide-Creator data-transformation logic.

The program (src/BLS_Slide_Creator.py) fetches labor-market time series
from the BLS API, extracts latest values and trended observation
sequences, joins two series into a merged table keyed by
(year, period, periodName), derives month/date/label columns, sorts by
date, and renders the result into a slide deck.

This file shallowly embeds the data model and the pure transformation
functions of that program and proves properties about them.  Python
runtime failures (TypeError from indexing None, KeyError from a missing
dict key, ValueError from pandas date assembly) are modelled with an
explicit error type and `Except`.
-/

/-- Errors a run of the program can fail with.  `typeError` models the
Python TypeError from subscripting None; `keyError k` models a dict
KeyError on key k; `valueError m` models a ValueError with message m
(pandas raises one when assembling dates from a column containing NaN
or a non-numeric year); `dataShapeError` models the named error the
spec asks a reimplementation to raise (the source never raises it). -/
inductive PyError where
  | typeError : PyError
  | keyError : String → PyError
  | valueError : String → PyError
  | dataShapeError : PyError
deriving DecidableEq

/-- One series observation as delivered by the BLS API: value, period
code, period name, year, and the optional latest flag (item.get of a
missing key yields None, modelled as `none`). -/
structure Observation where
  value : String
  period : String
  periodName : String
  year : String
  latest : Option String
deriving DecidableEq

/-- One series of the JSON envelope: its identifier and its observation
sequence. -/
structure SeriesJson where
  seriesID : String
  data : List Observation
deriving DecidableEq

/-- Check of the source loop condition: item.get of latest equals the
string true. -/
def isLatest (o : Observation) : Bool := o.latest == some "true"

/-- Embedding of find_latest_value: scan the data sequence for the first
entry flagged latest (the for loop with break), then build the triple
(seriesID, value, periodName-year).  When no entry is flagged the loop
leaves latest_data = None and subscripting latest_data raises a
TypeError, modelled as `Except.error PyError.typeError`. -/
def find_latest_value (jsoninput : SeriesJson) : Except PyError (String × String × String) :=
  match jsoninput.data.find? isLatest with
  | some latest_data =>
      Except.ok (jsoninput.seriesID, latest_data.value,
        latest_data.periodName ++ "-" ++ latest_data.year)
  | none => Except.error PyError.typeError

/-- Embedding of find_trended_data: scan the series list; for each item
look its seriesID up in the label dict (a missing id raises KeyError);
return the data of the first item whose label equals the requested
label.  Falling off the loop returns Python None, modelled as
`Except.ok none`. -/
def find_trended_data (jsoninput : List SeriesJson)
    (data_dict_key : List (String × String)) (k : String) :
    Except PyError (Option (List Observation)) :=
  match jsoninput with
  | [] => Except.ok none
  | item :: rest =>
    match data_dict_key.lookup item.seriesID with
    | none => Except.error (PyError.keyError item.seriesID)
    | some v =>
        if v = k then Except.ok (some item.data)
        else find_trended_data rest data_dict_key k

/-- The fixed label dict of the source (data_dict_key). -/
def data_dict_key : List (String × String) :=
  [("LNS13000000", "Unemployment Level"),
   ("JTS000000000000000JOL", "Labor Force"),
   ("CES0500000003", "Avg Hourly Earnings"),
   ("LNS14000000", "Unemployment Rate")]

/-- Helper: whether an Except value is a failure. -/
def isFailure : Except PyError α → Bool
  | Except.error _ => true
  | Except.ok _ => false

deriving instance DecidableEq for Except

/-- One row of a trended DataFrame after drop of the footnotes and
latest columns: the remaining columns value, period, periodName, year. -/
structure ObsRow where
  value : String
  period : String
  periodName : String
  year : String
deriving DecidableEq

/-- Embedding of pd.DataFrame(data).drop on one observation: keep
value, period, periodName, year. -/
def toRow (o : Observation) : ObsRow := ⟨o.value, o.period, o.periodName, o.year⟩

/-- Embedding of the DataFrame construction UEL_DF / LF_DF. -/
def dropCols (l : List Observation) : List ObsRow := l.map toRow

/-- Join key of the merge: the columns year, period, periodName. -/
def obsKey (r : ObsRow) : String × String × String := (r.year, r.period, r.periodName)

/-- One row of merged_df: the three key columns plus the two suffixed
value columns. -/
structure MergedRow where
  year : String
  period : String
  periodName : String
  value_UEL : String
  value_LB : String
deriving DecidableEq

/-- Join key of a merged row. -/
def mergedKey (r : MergedRow) : String × String × String := (r.year, r.period, r.periodName)

/-- Embedding of pd.merge(UEL_DF, LF_DF, on year period periodName,
suffixes UEL LB): the default inner join, emitting for each left row
(in left order) one output row per matching right row (in right
order). -/
def merged_df (A B : List ObsRow) : List MergedRow :=
  A.flatMap fun a =>
    (B.filter fun b => obsKey b == obsKey a).map fun b =>
      ⟨a.year, a.period, a.periodName, a.value, b.value⟩

/-- The fixed month-name lookup table of the source. -/
def month_map : List (String × Nat) :=
  [("January", 1), ("February", 2), ("March", 3), ("April", 4),
   ("May", 5), ("June", 6), ("July", 7), ("August", 8),
   ("September", 9), ("October", 10), ("November", 11), ("December", 12)]

/-- The twelve English month names, in calendar order. -/
def monthNames : List String := month_map.map Prod.fst

/-- A merged row with the derived columns month, date (a month-granular
timestamp year*12 + month-1, order-isomorphic to the pandas datetime
built from (year, month, day=1)) and the display label pdnamelist. -/
structure TrendRow where
  year : String
  period : String
  periodName : String
  value_UEL : String
  value_LB : String
  month : Nat
  date : Nat
  pdnamelist : String
deriving DecidableEq

/-- Numeric parse of a year string, as pd.to_datetime performs on the
year column: all-digit nonempty strings parse to their decimal value,
anything else fails. -/
def strToNat? (s : String) : Option Nat :=
  if s.data.isEmpty then none
  else if s.data.all Char.isDigit then
    some (s.data.foldl (fun n c => n * 10 + (c.toNat - 48)) 0)
  else none

/-- Embedding of the derived-column steps on one merged row: the month
number from month_map (Series.map yields NaN for an absent key), the
datetime from (year, month, day=1) (pd.to_datetime raises ValueError
when month is NaN or year is not numeric), and the display label
periodName-year. -/
def addDerived (r : MergedRow) : Except PyError TrendRow :=
  match month_map.lookup r.periodName, strToNat? r.year with
  | some m, some y =>
      Except.ok ⟨r.year, r.period, r.periodName, r.value_UEL, r.value_LB,
        m, y * 12 + (m - 1), r.periodName ++ "-" ++ r.year⟩
  | _, _ => Except.error (PyError.valueError "cannot assemble the datetimes")

/-- Column-wise application over all rows, propagating the first
failure, as the pandas column assignments do. -/
def mapExcept (f : α → Except PyError β) : List α → Except PyError (List β)
  | [] => Except.ok []
  | x :: xs =>
    match f x with
    | Except.error e => Except.error e
    | Except.ok y =>
      match mapExcept f xs with
      | Except.error e => Except.error e
      | Except.ok ys => Except.ok (y :: ys)

/-- Comparison used by sort_values on the date column. -/
def dateLE (r1 r2 : TrendRow) : Prop := r1.date ≤ r2.date

instance : DecidableRel dateLE := fun r1 r2 => Nat.decLe r1.date r2.date

instance : IsTotal TrendRow dateLE := ⟨fun a b => Nat.le_total a.date b.date⟩

instance : IsTrans TrendRow dateLE := ⟨fun _ _ _ h1 h2 => Nat.le_trans h1 h2⟩

/-- Embedding of the Reshaper tail: merge the two trended tables, add
the derived columns, and sort ascending by date. -/
def reshape (A B : List ObsRow) : Except PyError (List TrendRow) :=
  match mapExcept addDerived (merged_df A B) with
  | Except.error e => Except.error e
  | Except.ok rows => Except.ok (List.insertionSort dateLE rows)

/-- Embedding of the speaker-notes assignment: the source writes
"Unemployment Rate Data: " + URT_Data[1] + "\n" +
"Avg Hourly Earnings Data: " + AHE_Data[1], where each record is the
pair (value, label) built from find_latest_value, so index 1 is the
periodName-year label. -/
def notes_text_frame_text (URT_Data AHE_Data : String × String) : String :=
  "Unemployment Rate Data: " ++ URT_Data.2 ++ "\n" ++
    "Avg Hourly Earnings Data: " ++ AHE_Data.2

/-- Boolean test that the second list is an initial segment of the
first. -/
def startsWithL : List Char → List Char → Bool
  | _, [] => true
  | [], _ :: _ => false
  | a :: as, b :: bs => a == b && startsWithL as bs

/-- Boolean test that the second list occurs contiguously somewhere in
the first. -/
def charsContain : List Char → List Char → Bool
  | [], pat => pat.isEmpty
  | c :: tl, pat => startsWithL (c :: tl) pat || charsContain tl pat

/-- Concrete latest-flagged observation from the spec scenario. -/
def latestObs : Observation := ⟨"3.7", "M03", "March", "2024", some "true"⟩

/-- Concrete series holding latestObs. -/
def latestSeries : SeriesJson := ⟨"LNS14000000", [latestObs]⟩

/-- Concrete series with no latest flag anywhere. -/
def noLatestSeries : SeriesJson := ⟨"LNS14000000", [⟨"3.7", "M03", "March", "2024", none⟩]⟩

/-- Second flagged observation, later in the sequence. -/
def laterFlaggedObs : Observation := ⟨"3.9", "M02", "February", "2024", some "true"⟩

/-- Concrete series with two flagged observations. -/
def twoFlaggedSeries : SeriesJson := ⟨"LNS14000000", [latestObs, laterFlaggedObs]⟩

/-- Concrete series labelled Unemployment Level in the label dict. -/
def uelSeries : SeriesJson := ⟨"LNS13000000", [⟨"5700", "M03", "March", "2024", some "true"⟩]⟩

/-- Series A observations of the end-to-end scenario: January, February
and March 2023. -/
def uelObsList : List Observation :=
  [⟨"1000", "M01", "January", "2023", none⟩,
   ⟨"1100", "M02", "February", "2023", none⟩,
   ⟨"1200", "M03", "March", "2023", some "true"⟩]

/-- Series B observations of the end-to-end scenario: January and March
2023 only. -/
def lfObsList : List Observation :=
  [⟨"5000", "M01", "January", "2023", none⟩,
   ⟨"5200", "M03", "March", "2023", some "true"⟩]

/-- Single-row table with the non-month period name Annual. -/
def annualTable : List ObsRow := [⟨"100", "A01", "Annual", "2023"⟩]

/-- Duplicate-keyed single row. -/
def dupRow : ObsRow := ⟨"100", "M01", "January", "2023"⟩

/-- Table holding the same key twice. -/
def dupTable : List ObsRow := [dupRow, dupRow]

/-- C1: for every series JSON whose observation sequence contains a
flagged-latest entry (the first such entry o, as located by the scan),
find_latest_value returns the triple of the series identifier, the
value of o, and the label o.periodName ++ "-" ++ o.year; moreover o is
an element of the sequence and carries the latest flag. -/
theorem find_latest_value_first_flagged (s : SeriesJson) (o : Observation)
    (h : s.data.find? isLatest = some o) :
    find_latest_value s =
      Except.ok (s.seriesID, o.value, o.periodName ++ "-" ++ o.year) ∧
    o ∈ s.data ∧ o.latest = some "true" := by
  refine ⟨?_, List.mem_of_find?_eq_some h, ?_⟩
  · simp [find_latest_value, h]
  · simpa [isLatest] using List.find?_some h

/-- Witness for C1: on the concrete spec scenario the extractor returns
the triple ("LNS14000000", "3.7", "March-2024"). -/
theorem find_latest_value_first_flagged_witness :
    find_latest_value latestSeries =
      Except.ok ("LNS14000000", "3.7", "March-2024") ∧
    latestObs ∈ latestSeries.data ∧ latestObs.latest = some "true" := by
  have h := find_latest_value_first_flagged latestSeries latestObs (by decide)
  exact ⟨h.1.trans (by decide), h.2.1, h.2.2⟩

/-- C2 counterexample: on a series with zero flagged entries the source
function fails with the unguarded TypeError (subscripting None), which
is not the named DataShapeError the claim asserts. -/
theorem find_latest_value_no_flag_cex :
    find_latest_value noLatestSeries = Except.error PyError.typeError ∧
    PyError.typeError ≠ PyError.dataShapeError := ⟨by decide, by decide⟩

/-- C2 amended: for every series JSON with zero entries flagged latest,
find_latest_value fails, namely with the unguarded TypeError from
subscripting None (not with a named DataShapeError). -/
theorem find_latest_value_no_flag (s : SeriesJson)
    (h : ∀ o ∈ s.data, o.latest ≠ some "true") :
    find_latest_value s = Except.error PyError.typeError := by
  have hn : s.data.find? isLatest = none := by
    rw [List.find?_eq_none]
    intro x hx
    simpa [isLatest] using h x hx
  simp [find_latest_value, hn]

/-- Witness for the amended C2 at a concrete unflagged series. -/
theorem find_latest_value_no_flag_witness :
    find_latest_value noLatestSeries = Except.error PyError.typeError :=
  find_latest_value_no_flag noLatestSeries (by decide)

/-- C10: when the observation sequence splits as l1 ++ o :: l2 with no
flagged entry in l1, o flagged, and another flagged entry o₂ further on
in l2, find_latest_value returns the value and label of o, the first
flagged entry, ignoring o₂. -/
theorem find_latest_value_first_of_many (s : SeriesJson)
    (l1 l2 : List Observation) (o o₂ : Observation)
    (hd : s.data = l1 ++ o :: l2)
    (h1 : ∀ x ∈ l1, x.latest ≠ some "true")
    (ho : o.latest = some "true")
    (h2 : o₂ ∈ l2) (ho₂ : o₂.latest = some "true") :
    find_latest_value s =
      Except.ok (s.seriesID, o.value, o.periodName ++ "-" ++ o.year) := by
  have hn : l1.find? isLatest = none := by
    rw [List.find?_eq_none]
    intro x hx
    simpa [isLatest] using h1 x hx
  have hfind : s.data.find? isLatest = some o := by
    rw [hd, List.find?_append, hn]
    simpa using List.find?_cons_of_pos (p := isLatest) l2 (by simp [isLatest, ho])
  simp [find_latest_value, hfind]

/-- Witness for C10: with two flagged entries the first one wins. -/
theorem find_latest_value_first_of_many_witness :
    find_latest_value twoFlaggedSeries =
      Except.ok ("LNS14000000", "3.7", "March-2024") := by
  have h := find_latest_value_first_of_many twoFlaggedSeries
    [] [laterFlaggedObs] latestObs laterFlaggedObs rfl (by decide) (by decide)
    (List.mem_singleton.mpr rfl) (by decide)
  exact h.trans (by decide)

/-- C4 counterexample: searching [uelSeries] for the label Labor Force
matches nothing, and the source returns Python None (ok none) rather
than failing with a label-not-found error. -/
theorem find_trended_data_no_match_cex :
    find_trended_data [uelSeries] data_dict_key "Labor Force" = Except.ok none ∧
    isFailure (find_trended_data [uelSeries] data_dict_key "Labor Force") = false :=
  ⟨by decide, by decide⟩

/-- C4 amended: provided every series identifier in the list is present
in the label dict, find_trended_data returns the data of the first
series whose label equals the requested label, and returns ok none
(Python None, not an error) when no series matches. -/
theorem find_trended_data_spec (l : List SeriesJson)
    (d : List (String × String)) (k : String)
    (hall : ∀ s ∈ l, (d.lookup s.seriesID).isSome = true) :
    find_trended_data l d k =
      Except.ok ((l.find? (fun s => d.lookup s.seriesID == some k)).map SeriesJson.data) := by
  induction l with
  | nil => rfl
  | cons item rest ih =>
    have hsome := hall item (List.mem_cons_self item rest)
    obtain ⟨v, hv2⟩ := Option.isSome_iff_exists.mp hsome
    simp only [find_trended_data, hv2]
    by_cases hk : v = k
    · subst hk
      rw [List.find?_cons_of_pos _ (by simp [hv2])]
      simp
    · rw [if_neg hk, List.find?_cons_of_neg _ (by simp [hv2, hk])]
      exact ih fun s hs => hall s (List.mem_cons_of_mem _ hs)

/-- Witness for the amended C4: the matching search returns the series
data, at the concrete one-series list. -/
theorem find_trended_data_spec_witness :
    find_trended_data [uelSeries] data_dict_key "Unemployment Level" =
      Except.ok (some uelSeries.data) := by
  have h := find_trended_data_spec [uelSeries] data_dict_key
    "Unemployment Level" (by decide)
  exact h.trans (by decide)

/-- C6: on the end-to-end scenario (A has M01, M02, M03 of 2023, B has
M01 and M03), the merged and sorted output has exactly the two rows
January-2023 then March-2023, in that order; no February-2023 row is
present. -/
theorem reshape_end_to_end :
    reshape (dropCols uelObsList) (dropCols lfObsList) =
      Except.ok
        [⟨"2023", "M01", "January", "1000", "5000", 1, 24276, "January-2023"⟩,
         ⟨"2023", "M03", "March", "1200", "5200", 3, 24278, "March-2023"⟩] := by
  decide

/-- Helper for C5 and C7: a key occurs among the merged rows exactly
when it occurs among the keys of both inputs. -/
lemma mem_mergedKeys (A B : List ObsRow) (k : String × String × String) :
    k ∈ (merged_df A B).map mergedKey ↔ k ∈ A.map obsKey ∧ k ∈ B.map obsKey := by
  constructor
  · intro h
    obtain ⟨r, hr, rfl⟩ := List.mem_map.mp h
    obtain ⟨a, ha, hr2⟩ := List.mem_flatMap.mp hr
    obtain ⟨b, hbf, rfl⟩ := List.mem_map.mp hr2
    obtain ⟨hb, hbeq⟩ := List.mem_filter.mp hbf
    have hkeys : obsKey b = obsKey a := eq_of_beq hbeq
    constructor
    · exact List.mem_map.mpr ⟨a, ha, rfl⟩
    · exact List.mem_map.mpr ⟨b, hb, hkeys⟩
  · rintro ⟨hA, hB⟩
    obtain ⟨a, ha, hka⟩ := List.mem_map.mp hA
    obtain ⟨b, hb, hkb⟩ := List.mem_map.mp hB
    refine List.mem_map.mpr ⟨⟨a.year, a.period, a.periodName, a.value, b.value⟩, ?_, hka⟩
    refine List.mem_flatMap.mpr ⟨a, ha, ?_⟩
    refine List.mem_map.mpr ⟨b, ?_, rfl⟩
    exact List.mem_filter.mpr ⟨hb, beq_iff_eq.mpr (hkb.trans hka.symm)⟩

/-- C7: the join is symmetric on the key (year, period, periodName):
merging A with B and merging B with A yield the same set of period
keys. -/
theorem merged_df_symm_keys (A B : List ObsRow) :
    ((merged_df A B).map mergedKey).toFinset =
      ((merged_df B A).map mergedKey).toFinset := by
  ext k
  simp only [List.mem_toFinset, mem_mergedKeys]
  exact ⟨fun h => ⟨h.2, h.1⟩, fun h => ⟨h.2, h.1⟩⟩

/-- C8: whenever the Reshaper succeeds, every pair of adjacent rows of
its output satisfies date r1 ≤ date r2: the output is sorted ascending
by the derived date. -/
theorem reshape_sorted (A B : List ObsRow) (rows : List TrendRow)
    (h : reshape A B = Except.ok rows) :
    List.Chain' dateLE rows := by
  unfold reshape at h
  cases hm : mapExcept addDerived (merged_df A B) with
  | error e => rw [hm] at h; exact absurd h (by simp)
  | ok l =>
      rw [hm] at h
      simp only [Except.ok.injEq] at h
      rw [← h]
      exact List.Pairwise.chain' (List.sorted_insertionSort dateLE l)

/-- Witness for C8: the sorted property instantiated on the concrete
output of the end-to-end scenario. -/
theorem reshape_sorted_witness :
    List.Chain' dateLE
      [⟨"2023", "M01", "January", "1000", "5000", 1, 24276, "January-2023"⟩,
       ⟨"2023", "M03", "March", "1200", "5200", 3, 24278, "March-2023"⟩] :=
  reshape_sorted (dropCols uelObsList) (dropCols lfObsList) _ (by decide)

/-- Helper: a merged row whose periodName is absent from month_map makes
the derived-column step fail with the pandas ValueError. -/
lemma addDerived_error_of_unmapped {r : MergedRow}
    (h : month_map.lookup r.periodName = none) :
    addDerived r = Except.error (PyError.valueError "cannot assemble the datetimes") := by
  cases hy : strToNat? r.year with
  | none => simp [addDerived, h, hy]
  | some y => simp [addDerived, h, hy]

/-- Helper: every failure of the derived-column step carries the same
pandas ValueError. -/
lemma addDerived_error_const (r : MergedRow) (e : PyError)
    (h : addDerived r = Except.error e) :
    e = PyError.valueError "cannot assemble the datetimes" := by
  unfold addDerived at h
  cases hm2 : month_map.lookup r.periodName <;> cases hy : strToNat? r.year <;>
      simp [hm2, hy] at h <;> exact h.symm

/-- Helper: when some element fails and all failures carry the same
error, the column-wise application fails with that error. -/
lemma mapExcept_error_of_mem {f : α → Except PyError β} {l : List α} {e : PyError}
    (hconst : ∀ x ex, f x = Except.error ex → ex = e)
    (hx : ∃ x ∈ l, f x = Except.error e) :
    mapExcept f l = Except.error e := by
  induction l with
  | nil => simp at hx
  | cons a tl ih =>
    obtain ⟨x, hxl, hfx⟩ := hx
    rcases List.mem_cons.mp hxl with rfl | hmem
    · simp [mapExcept, hfx]
    · cases hfa : f a with
      | error ea =>
          have hea := hconst a ea hfa
          subst hea
          simp [mapExcept, hfa]
      | ok y =>
          have htl := ih ⟨x, hmem, hfx⟩
          simp [mapExcept, hfa, htl]

/-- C3 counterexample: on a merged row whose periodName is Annual the
Reshaper fails, but with the pandas ValueError from date assembly, not
with the named DataShapeError the claim asserts. -/
theorem reshape_annual_cex :
    reshape annualTable annualTable =
      Except.error (PyError.valueError "cannot assemble the datetimes") ∧
    PyError.valueError "cannot assemble the datetimes" ≠ PyError.dataShapeError :=
  ⟨by decide, by decide⟩

/-- C3 amended: the month-name lookup succeeds on each of the twelve
table entries (January maps to 1 through December to 12) and yields
nothing for every other string; and whenever some merged row has a
periodName outside the table, the Reshaper fails, namely with the
pandas ValueError raised by date assembly (not with a named
DataShapeError: the lookup itself silently yields NaN). -/
theorem month_map_total_and_failure :
    (∀ p ∈ month_map, month_map.lookup p.1 = some p.2) ∧
    (∀ nm, nm ∉ monthNames → month_map.lookup nm = none) ∧
    (∀ A B : List ObsRow,
      (∃ r ∈ merged_df A B, month_map.lookup r.periodName = none) →
      reshape A B = Except.error (PyError.valueError "cannot assemble the datetimes")) := by
  refine ⟨by decide, ?_, ?_⟩
  · intro nm hnm
    rw [List.lookup_eq_none_iff]
    intro p hp
    rw [bne_iff_ne]
    intro heq
    exact hnm (List.mem_map.mpr ⟨p, hp, heq.symm⟩)
  · rintro A B ⟨r, hr, hnone⟩
    have herr :=
      mapExcept_error_of_mem (f := addDerived) (l := merged_df A B)
        (fun x ex hx => addDerived_error_const x ex hx)
        ⟨r, hr, addDerived_error_of_unmapped hnone⟩
    unfold reshape
    rw [herr]

/-- Witness for the amended C3: the Reshaper fails on the concrete
Annual table, discharging the existence hypothesis there. -/
theorem month_map_total_and_failure_witness :
    reshape annualTable annualTable =
      Except.error (PyError.valueError "cannot assemble the datetimes") :=
  month_map_total_and_failure.2.2 annualTable annualTable
    ⟨⟨"2023", "A01", "Annual", "100", "100"⟩, by decide, by decide⟩

/-- Helper: with duplicate-free keys, the number of rows matching a key
is 1 when the key occurs and 0 otherwise. -/
lemma filter_key_length (B : List ObsRow) (hB : (B.map obsKey).Nodup)
    (k : String × String × String) :
    (B.filter fun b => obsKey b == k).length =
      if k ∈ B.map obsKey then 1 else 0 := by
  induction B with
  | nil => simp
  | cons b tl ih =>
    rw [List.map_cons, List.nodup_cons] at hB
    obtain ⟨hnb, htl⟩ := hB
    by_cases hk : obsKey b = k
    · subst hk
      rw [List.filter_cons_of_pos (by simp), List.length_cons, ih htl,
        if_neg hnb, List.map_cons, if_pos (List.mem_cons_self _ _)]
    · have hk2 : k ≠ obsKey b := Ne.symm hk
      rw [List.filter_cons_of_neg (by simpa using hk), ih htl, List.map_cons]
      simp [List.mem_cons, hk2]

/-- Helper: with duplicate-free right keys, the merged table has one row
per left row whose key also occurs on the right. -/
lemma merged_df_length_nodup (A B : List ObsRow)
    (hB : (B.map obsKey).Nodup) :
    (merged_df A B).length =
      A.countP (fun a => decide (obsKey a ∈ B.map obsKey)) := by
  induction A with
  | nil => simp [merged_df]
  | cons a tl ih =>
    have hcount :
        (B.filter fun b => obsKey b == obsKey a).length =
          if obsKey a ∈ B.map obsKey then 1 else 0 :=
      filter_key_length B hB (obsKey a)
    simp only [merged_df] at ih ⊢
    rw [List.flatMap_cons, List.length_append, List.length_map, hcount, ih,
      List.countP_cons]
    by_cases hm : obsKey a ∈ B.map obsKey <;> simp [hm, Nat.add_comm]

/-- C5 counterexample: with a duplicated key on both sides the merged
table has 4 rows, exceeding min lengths = 2 (and exceeding the single
common key pair), so the claimed bound fails on general tables. -/
theorem merged_df_card_cex :
    (merged_df dupTable dupTable).length = 4 ∧
    min dupTable.length dupTable.length = 2 ∧
    ¬ (merged_df dupTable dupTable).length ≤
        min dupTable.length dupTable.length :=
  ⟨by decide, by decide, by decide⟩

/-- C5 amended: when each input table has duplicate-free join keys, the
merged table has exactly one row per (year, period, periodName) key
common to both tables — so at most min of the two lengths — and every
merged row key occurs in both inputs. -/
theorem merged_df_card (A B : List ObsRow)
    (hA : (A.map obsKey).Nodup) (hB : (B.map obsKey).Nodup) :
    (merged_df A B).length =
      ((A.map obsKey).toFinset ∩ (B.map obsKey).toFinset).card ∧
    (merged_df A B).length ≤ min A.length B.length ∧
    ∀ r ∈ merged_df A B,
      mergedKey r ∈ A.map obsKey ∧ mergedKey r ∈ B.map obsKey := by
  have h1 := merged_df_length_nodup A B hB
  have h2 : A.countP (fun a => decide (obsKey a ∈ B.map obsKey)) =
      ((A.map obsKey).filter (fun kk => decide (kk ∈ B.map obsKey))).length := by
    rw [← List.countP_eq_length_filter, List.countP_map]
    rfl
  have h3 : ((A.map obsKey).filter (fun kk => decide (kk ∈ B.map obsKey))).toFinset.card =
      ((A.map obsKey).filter (fun kk => decide (kk ∈ B.map obsKey))).length :=
    List.toFinset_card_of_nodup (hA.filter _)
  have h4 : ((A.map obsKey).filter (fun kk => decide (kk ∈ B.map obsKey))).toFinset =
      (A.map obsKey).toFinset ∩ (B.map obsKey).toFinset := by
    ext kk
    simp [List.mem_toFinset, List.mem_filter]
  have hcard : (merged_df A B).length =
      ((A.map obsKey).toFinset ∩ (B.map obsKey).toFinset).card := by
    rw [h1, h2, ← h3, h4]
  refine ⟨hcard, ?_, ?_⟩
  · have hle1 : (merged_df A B).length ≤ A.length := by
      rw [h1]
      simpa using List.countP_le_length _
    have hle2 : (merged_df A B).length ≤ B.length := by
      rw [hcard]
      calc ((A.map obsKey).toFinset ∩ (B.map obsKey).toFinset).card
          ≤ (B.map obsKey).toFinset.card :=
            Finset.card_le_card Finset.inter_subset_right
        _ ≤ (B.map obsKey).length := List.toFinset_card_le _
        _ = B.length := List.length_map B obsKey
    exact le_min hle1 hle2
  · intro r hr
    exact (mem_mergedKeys A B (mergedKey r)).mp
      (List.mem_map.mpr ⟨r, hr, rfl⟩)

/-- Witness for the amended C5 at the concrete end-to-end tables, whose
join keys are duplicate-free. -/
theorem merged_df_card_witness :
    (merged_df (dropCols uelObsList) (dropCols lfObsList)).length =
      (((dropCols uelObsList).map obsKey).toFinset ∩
        ((dropCols lfObsList).map obsKey).toFinset).card ∧
    (merged_df (dropCols uelObsList) (dropCols lfObsList)).length ≤
      min (dropCols uelObsList).length (dropCols lfObsList).length := by
  have h := merged_df_card (dropCols uelObsList) (dropCols lfObsList)
    (by decide) (by decide)
  exact ⟨h.1, h.2.1⟩

/-- Helper: a list starts with itself followed by anything. -/
lemma startsWithL_append (p q : List Char) : startsWithL (p ++ q) p = true := by
  induction p with
  | nil => cases q <;> rfl
  | cons c p ih => simp [startsWithL, ih]

/-- Helper: the empty pattern occurs in every list. -/
lemma charsContain_nil (l : List Char) : charsContain l [] = true := by
  cases l <;> simp [charsContain, startsWithL, List.isEmpty]

/-- Helper: a pattern occurs in any list that embeds it between a
front part and a tail part. -/
lemma charsContain_mid (pre pat suf : List Char) :
    charsContain (pre ++ (pat ++ suf)) pat = true := by
  induction pre with
  | nil =>
    cases pat with
    | nil => simpa using charsContain_nil suf
    | cons c pt =>
        simp only [List.nil_append, List.cons_append, charsContain, startsWithL,
          List.append_eq]
        simp [startsWithL_append]
  | cons c pr ih =>
    simp only [List.cons_append, charsContain, List.append_eq]
    simp [ih]

/-- Helper: string concatenation concatenates the character data. -/
lemma strData_append (a b : String) : (a ++ b).data = a.data ++ b.data := rfl

/-- C9 counterexample: with latest-value records ("3.7", "March-2024")
and ("34.75", "March-2024") the notes text holds the two labels only;
neither raw numeric value ("3.7", "34.75") occurs in it, contradicting
the claim that the notes contain the raw values. -/
theorem notes_missing_values_cex :
    notes_text_frame_text ("3.7", "March-2024") ("34.75", "March-2024") =
      "Unemployment Rate Data: March-2024\nAvg Hourly Earnings Data: March-2024" ∧
    charsContain
      (notes_text_frame_text ("3.7", "March-2024") ("34.75", "March-2024")).data
      "3.7".data = false ∧
    charsContain
      (notes_text_frame_text ("3.7", "March-2024") ("34.75", "March-2024")).data
      "34.75".data = false :=
  ⟨by decide, by decide, by decide⟩

/-- C9 amended: for every pair of latest-value records, the two lines of
speaker notes contain the latest label (the periodName-year field,
index 1) of each record; the raw numeric values are not written (the
source writes index 1 for both lines). -/
theorem notes_contain_labels (URT_Data AHE_Data : String × String) :
    charsContain (notes_text_frame_text URT_Data AHE_Data).data
      URT_Data.2.data = true ∧
    charsContain (notes_text_frame_text URT_Data AHE_Data).data
      AHE_Data.2.data = true := by
  have hdata : (notes_text_frame_text URT_Data AHE_Data).data =
      "Unemployment Rate Data: ".data ++
        (URT_Data.2.data ++
          (("\n" ++ "Avg Hourly Earnings Data: ").data ++ AHE_Data.2.data)) := by
    simp [notes_text_frame_text, strData_append, List.append_assoc]
  constructor
  · rw [hdata]
    exact charsContain_mid _ _ _
  · rw [hdata]
    have h2 : ("\n" ++ "Avg Hourly Earnings Data: ").data ++ AHE_Data.2.data =
        ("\n" ++ "Avg Hourly Earnings Data: ").data ++ (AHE_Data.2.data ++ []) := by
      simp
    rw [h2, show "Unemployment Rate Data: ".data ++
        (URT_Data.2.data ++
          (("\n" ++ "Avg Hourly Earnings Data: ").data ++ (AHE_Data.2.data ++ []))) =
        ("Unemployment Rate Data: ".data ++
          (URT_Data.2.data ++ ("\n" ++ "Avg Hourly Earnings Data: ").data)) ++
          (AHE_Data.2.data ++ []) by simp [List.append_assoc]]
    exact charsContain_mid _ _ _
